import Mathlib

/-!
Shallow embedding of loom-js's transaction-nonce middleware and transfer-gateway
contract wrapper (src/middleware/nonce-eth-tx-middleware.ts), together with
theorems settling the specification claims about them.

Conventions of the embedding:
* protobuf big unsigned integers (`BN` / `BigUInt` messages) become `Nat`
  (the spec requires unbounded precision end to end);
* byte arrays become `List Nat`;
* JavaScript `undefined` / optional protobuf fields become `Option`;
* a JavaScript function that may `throw` becomes `Except JsValue _`, where
  `JsValue` distinguishes `Error` instances (with their message) from
  non-`Error` thrown values;
* `await`ed collaborators (the chain-state reader, the static-call transport,
  the protobuf deserializers of event payloads) are passed in as function
  parameters, so the pure interpretation logic of the source is what is
  being reasoned about.
-/

/-- A JavaScript value as far as error classification is concerned: either an
`Error` instance carrying a message, or any other value. -/
inductive JsValue where
  | jsError (message : String)
  | jsOther (tag : String)
deriving DecidableEq

/-- The constant `INVALID_TX_NONCE_ERROR = 'Invalid tx nonce'` from the source. -/
def INVALID_TX_NONCE_ERROR : String := "Invalid tx nonce"

/-- `isInvalidTxNonceError(err)`: `err instanceof Error && err.message === INVALID_TX_NONCE_ERROR`. -/
def isInvalidTxNonceError : JsValue → Bool
  | JsValue.jsError message => message == INVALID_TX_NONCE_ERROR
  | JsValue.jsOther _ => false

/-- `startsWith` on character lists, auxiliary to the substring test. -/
def listStartsWith : List Char → List Char → Bool
  | _, [] => true
  | [], _ :: _ => false
  | c :: hs, p :: ps => c == p && listStartsWith hs ps

/-- Substring occurrence on character lists, auxiliary to the substring test. -/
def listContainsSub (hay pat : List Char) : Bool :=
  match hay with
  | [] => listStartsWith [] pat
  | c :: t => listStartsWith (c :: t) pat || listContainsSub t pat

/-- Models JavaScript `s.indexOf(pat) !== -1`: `pat` occurs as a contiguous
substring of `s`. -/
def strIndexOfFound (s pat : String) : Bool :=
  listContainsSub s.toList pat.toList

/-- The sequence-number-mismatch marker substring matched by `HandleResults`. -/
def seqMismatchMarker : String := "sequence number does not match"

/-- One stage (`validation` or `commit`) of an `ITxResults`: a numeric status
code and a free-text log (JavaScript `undefined` log is modelled as `""`,
which is equally falsy in the source's truthiness test). -/
structure StageResult where
  code : Nat
  log : String
deriving DecidableEq

/-- The structured result set handed to `HandleResults`, with its optional
`validation` and `commit` stages. -/
structure ITxResults where
  validation : Option StageResult
  commit : Option StageResult
deriving DecidableEq

/-- The guard the source applies to one stage:
`stage && stage.code === 1 && (stage.log && stage.log.indexOf('sequence number does not match') !== -1)`. -/
def stageSignalsNonceMismatch (s : StageResult) : Bool :=
  s.code == 1 && (!(s.log == "") && strIndexOfFound s.log seqMismatchMarker)

/-- Truthiness-aware lift of the stage guard to the optional stage. -/
def optionStageSignals : Option StageResult → Bool
  | some s => stageSignalsNonceMismatch s
  | none => false

/-- `NonceEthTxMiddleware.HandleResults`: checks the `validation` stage, then
the `commit` stage, and throws `new Error(INVALID_TX_NONCE_ERROR)` when one
matches; otherwise returns the input result set unchanged. -/
def HandleResults (results : ITxResults) : Except JsValue ITxResults :=
  if optionStageSignals results.validation then
    Except.error (JsValue.jsError INVALID_TX_NONCE_ERROR)
  else if optionStageSignals results.commit then
    Except.error (JsValue.jsError INVALID_TX_NONCE_ERROR)
  else
    Except.ok results

/-- The `NonceTx` envelope as built by `Handle`: inner payload bytes plus the
sequence number (serialization to protobuf wire format is external). -/
structure NonceTx where
  inner : List Nat
  sequence : Nat
deriving DecidableEq

/-- `NonceEthTxMiddleware.Handle`: fetches the current nonce for
`('eth', fromAddress)` from the chain-state reader and wraps the payload in a
`NonceTx` carrying `nonce + 1`. The reader `getNonce2Async` is the injected
collaborator `this._client.getNonce2Async`. -/
def Handle (getNonce2Async : String → String → Nat) (fromAddress : String)
    (txData : List Nat) : NonceTx :=
  let nonce := getNonce2Async "eth" fromAddress
  { inner := txData, sequence := nonce + 1 }

/-- A DAppChain / Ethereum address (chain id plus local address bytes, here a
hex string); address formatting is out of scope, so the protobuf form is the
address itself and `MarshalPB` / `UnmarshalPB` are the identity. -/
structure Address where
  chainId : String
  localAddress : String
deriving DecidableEq

/-- `Address.prototype.MarshalPB` (marshaling itself is out-of-scope plumbing). -/
def Address.MarshalPB (a : Address) : Address := a

/-- Static `Address.UnmarshalPB` (marshaling itself is out-of-scope plumbing). -/
def Address.UnmarshalPB (a : Address) : Address := a

/-- `marshalBigUIntPB` / `unmarshalBigUIntPB` are out-of-scope full-precision
marshaling helpers; on the `Nat` model of unbounded unsigned integers both are
the identity. -/
def marshalBigUIntPB (n : Nat) : Nat := n

/-- See `marshalBigUIntPB`. -/
def unmarshalBigUIntPB (n : Nat) : Nat := n

namespace TransferGatewayTokenKind

/-- Modelled from the spec: the `TransferGatewayTokenKind` protobuf enum is
declared in `proto/transfer_gateway_pb`, which is not part of the source under
audit; the spec lists the variants Native-Coin (ETH), Fungible (ERC20),
Non-Fungible (ERC721) and Semi-Fungible (ERC721X). The discriminant is kept as
a plain `Nat` so that unrecognized / future enum values remain representable;
the decoding switch in the source only distinguishes `ERC721` and `ERC721X`
from everything else, so only distinctness of these values matters. -/
def ETH : Nat := 0

/-- Fungible (ERC20) token-kind discriminant; see `TransferGatewayTokenKind.ETH`. -/
def ERC20 : Nat := 1

/-- Non-Fungible (ERC721) token-kind discriminant; see `TransferGatewayTokenKind.ETH`. -/
def ERC721 : Nat := 2

/-- Semi-Fungible (ERC721X) token-kind discriminant; see `TransferGatewayTokenKind.ETH`. -/
def ERC721X : Nat := 3

end TransferGatewayTokenKind

/-- A normalized recoverable validator signature in `(r, s, v)` form, the shape
produced by ethers' `utils.splitSignature`. -/
structure SplitSignature where
  r : List Nat
  s : List Nat
  v : Nat
deriving DecidableEq

/-- Modelled from the spec: `utils.splitSignature` is an external ethers
collaborator; per the spec it normalizes one raw 65-byte recoverable validator
signature into the `(r, s, v)` triple, so it is modelled as splitting the raw
byte list into `r` (first 32 bytes), `s` (next 32 bytes) and `v` (last byte).
The claims about it only concern how the decoders map it over the signature
list, never its internal arithmetic. -/
def splitSignature (raw : List Nat) : SplitSignature :=
  { r := raw.take 32, s := (raw.drop 32).take 32, v := raw.getLastD 0 }

/-- The decoded `TransferGatewayTokenWithdrawalSigned` protobuf event payload:
raw fields as `deserializeBinary` delivers them (numeric fields still in their
`BigUInt` protobuf form, here `Nat`; signatures still raw byte arrays). -/
structure TransferGatewayTokenWithdrawalSigned where
  tokenOwner : Address
  tokenContract : Address
  tokenKind : Nat
  tokenId : Nat
  tokenAmount : Nat
  validatorSignatures : List (List Nat)
deriving DecidableEq

/-- The normalized `ITokenWithdrawalEventArgs` value emitted for
`EVENT_TOKEN_WITHDRAWAL`. -/
structure ITokenWithdrawalEventArgs where
  tokenOwner : Address
  tokenContract : Address
  tokenKind : Nat
  tokenId : Option Nat
  tokenAmount : Option Nat
  sigs : List SplitSignature
  value : Nat
deriving DecidableEq

/-- The token-kind switch of the event branch of the `TransferGateway`
constructor: `ERC721` unmarshals only the token id and sets `value` to it;
`ERC721X` unmarshals the token id and falls through to the default branch;
the default branch unmarshals the amount and sets `value` to it. -/
def decodeTokenWithdrawalSigned
    (eventData : TransferGatewayTokenWithdrawalSigned) : ITokenWithdrawalEventArgs :=
  let kindFields : Option Nat × Option Nat × Nat :=
    if eventData.tokenKind = TransferGatewayTokenKind.ERC721 then
      (some (unmarshalBigUIntPB eventData.tokenId), none,
        unmarshalBigUIntPB eventData.tokenId)
    else if eventData.tokenKind = TransferGatewayTokenKind.ERC721X then
      (some (unmarshalBigUIntPB eventData.tokenId),
        some (unmarshalBigUIntPB eventData.tokenAmount),
        unmarshalBigUIntPB eventData.tokenAmount)
    else
      (none, some (unmarshalBigUIntPB eventData.tokenAmount),
        unmarshalBigUIntPB eventData.tokenAmount)
  { tokenOwner := Address.UnmarshalPB eventData.tokenOwner
    tokenContract := Address.UnmarshalPB eventData.tokenContract
    tokenKind := eventData.tokenKind
    tokenId := kindFields.1
    tokenAmount := kindFields.2.1
    sigs := eventData.validatorSignatures.map splitSignature
    value := kindFields.2.2 }

/-- The decoded `TransferGatewayContractMappingConfirmed` protobuf event
payload. -/
structure TransferGatewayContractMappingConfirmed where
  foreignContract : Address
  localContract : Address
deriving DecidableEq

/-- The normalized `IContractMappingConfirmedEventArgs` value emitted for
`EVENT_CONTRACT_MAPPING_CONFIRMED`. -/
structure IContractMappingConfirmedEventArgs where
  foreignContract : Address
  localContract : Address
deriving DecidableEq

/-- `TransferGateway.tokenWithdrawalSignedEventTopic`. -/
def tokenWithdrawalSignedEventTopic : String := "event:TokenWithdrawalSigned"

/-- `TransferGateway.contractMappingConfirmedEventTopic`. -/
def contractMappingConfirmedEventTopic : String := "event:ContractMappingConfirmed"

/-- A chain event as delivered to the `Contract.EVENT` listener: an optional
topics list (`undefined` modelled as `none`) and a base64 data payload. -/
structure IChainEventArgs where
  topics : Option (List String)
  data : String
deriving DecidableEq

/-- What the `TransferGateway` constructor's event listener emits for one
delivered chain event. -/
inductive EmittedGatewayEvent where
  | tokenWithdrawal (args : ITokenWithdrawalEventArgs)
  | contractMappingConfirmed (args : IContractMappingConfirmedEventArgs)
deriving DecidableEq

/-- The event listener installed by the `TransferGateway` constructor: events
with a missing or empty topics list are ignored; an event whose first topic is
the token-withdrawal topic is deserialized as `TokenWithdrawalSigned`, decoded
and emitted; one whose first topic is the contract-mapping topic is
deserialized as `ContractMappingConfirmed` and emitted; all other events are
ignored. `deserializeWithdrawal` and `deserializeMapping` stand for
`deserializeBinary ∘ B64ToUint8Array` of the respective protobuf messages
(external decoding plumbing), applied to `event.data`. -/
def handleContractEvent
    (deserializeWithdrawal : String → TransferGatewayTokenWithdrawalSigned)
    (deserializeMapping : String → TransferGatewayContractMappingConfirmed)
    (event : IChainEventArgs) : Option EmittedGatewayEvent :=
  match event.topics with
  | none => none
  | some topics =>
    if topics.length = 0 then
      none
    else if topics.headD "" = tokenWithdrawalSignedEventTopic then
      some (EmittedGatewayEvent.tokenWithdrawal
        (decodeTokenWithdrawalSigned (deserializeWithdrawal event.data)))
    else if topics.headD "" = contractMappingConfirmedEventTopic then
      let contractMappingConfirmed := deserializeMapping event.data
      some (EmittedGatewayEvent.contractMappingConfirmed
        { foreignContract := Address.UnmarshalPB contractMappingConfirmed.foreignContract
          localContract := Address.UnmarshalPB contractMappingConfirmed.localContract })
    else
      none

/-- The raw withdrawal receipt inside a `TransferGatewayWithdrawalReceiptResponse`
(fields as the protobuf getters deliver them). -/
structure TransferGatewayWithdrawalReceipt where
  tokenOwner : Address
  tokenContract : Address
  tokenKind : Nat
  tokenId : Nat
  tokenAmount : Nat
  withdrawalNonce : Nat
  validatorSignatures : List (List Nat)
deriving DecidableEq

/-- The `TransferGatewayWithdrawalReceiptResponse` protobuf message: its
receipt field is optional (`result.getReceipt()` may deliver nothing). -/
structure TransferGatewayWithdrawalReceiptResponse where
  receipt : Option TransferGatewayWithdrawalReceipt
deriving DecidableEq

/-- The normalized `IWithdrawalReceipt` value returned by
`withdrawalReceiptAsync`. -/
structure IWithdrawalReceipt where
  tokenOwner : Address
  tokenContract : Address
  tokenKind : Nat
  tokenId : Option Nat
  tokenAmount : Option Nat
  withdrawalNonce : Nat
  value : Nat
  sigs : List SplitSignature
deriving DecidableEq

/-- `TransferGateway.withdrawalReceiptAsync`: issues the static
`WithdrawalReceipt` call for the owner (the transport is the injected
`staticCallAsync` collaborator), and if the response carries a receipt decodes
it with the same token-kind switch as the event path — `ERC721` unmarshals
only the token id and sets `value` to it, `ERC721X` unmarshals the token id
and falls through to the default branch, the default branch unmarshals the
amount and sets `value` to it — returning `null` (here `none`) when the
response has no receipt. -/
def withdrawalReceiptAsync
    (staticCallAsync : Address → TransferGatewayWithdrawalReceiptResponse)
    (owner : Address) : Option IWithdrawalReceipt :=
  let result := staticCallAsync owner
  match result.receipt with
  | some receipt =>
    let kindFields : Option Nat × Option Nat × Nat :=
      if receipt.tokenKind = TransferGatewayTokenKind.ERC721 then
        (some (unmarshalBigUIntPB receipt.tokenId), none,
          unmarshalBigUIntPB receipt.tokenId)
      else if receipt.tokenKind = TransferGatewayTokenKind.ERC721X then
        (some (unmarshalBigUIntPB receipt.tokenId),
          some (unmarshalBigUIntPB receipt.tokenAmount),
          unmarshalBigUIntPB receipt.tokenAmount)
      else
        (none, some (unmarshalBigUIntPB receipt.tokenAmount),
          unmarshalBigUIntPB receipt.tokenAmount)
    some
      { tokenOwner := Address.UnmarshalPB receipt.tokenOwner
        tokenContract := Address.UnmarshalPB receipt.tokenContract
        tokenKind := receipt.tokenKind
        tokenId := kindFields.1
        tokenAmount := kindFields.2.1
        withdrawalNonce := receipt.withdrawalNonce
        value := kindFields.2.2
        sigs := receipt.validatorSignatures.map splitSignature }
  | none => none

/-- The `TransferGatewayWithdrawTokenRequest` protobuf message as the builders
populate it; every field a builder may set is optional on the wire and starts
unset. -/
structure TransferGatewayWithdrawTokenRequest where
  tokenKind : Option Nat
  tokenId : Option Nat
  tokenAmount : Option Nat
  tokenContract : Option Address
  recipient : Option Address
deriving DecidableEq

/-- The `TransferGatewayWithdrawETHRequest` protobuf message as
`withdrawETHAsync` populates it: an amount, the mainnet (Ethereum) gateway
address and an optional recipient — the message has no token-contract field. -/
structure TransferGatewayWithdrawETHRequest where
  amount : Option Nat
  mainnetGateway : Option Address
  recipient : Option Address
deriving DecidableEq

/-- `TransferGateway.withdrawERC721Async`: builds the `WithdrawToken` request
with kind `ERC721`, the marshalled token id and contract, and the recipient
only when one was passed; the request value is what `callAsync('WithdrawToken', req)`
then submits. -/
def withdrawERC721Async (tokenId : Nat) (tokenContract : Address)
    (recipient : Option Address) : TransferGatewayWithdrawTokenRequest :=
  { tokenKind := some TransferGatewayTokenKind.ERC721
    tokenId := some (marshalBigUIntPB tokenId)
    tokenAmount := none
    tokenContract := some tokenContract.MarshalPB
    recipient := recipient.map Address.MarshalPB }

/-- `TransferGateway.withdrawERC721XAsync`: builds the `WithdrawToken` request
with kind `ERC721X`, the marshalled token id, amount and contract, and the
recipient only when one was passed. -/
def withdrawERC721XAsync (tokenId : Nat) (amount : Nat) (tokenContract : Address)
    (recipient : Option Address) : TransferGatewayWithdrawTokenRequest :=
  { tokenKind := some TransferGatewayTokenKind.ERC721X
    tokenId := some (marshalBigUIntPB tokenId)
    tokenAmount := some (marshalBigUIntPB amount)
    tokenContract := some tokenContract.MarshalPB
    recipient := recipient.map Address.MarshalPB }

/-- `TransferGateway.withdrawERC20Async`: builds the `WithdrawToken` request
with kind `ERC20`, the marshalled amount and contract, and the recipient only
when one was passed. -/
def withdrawERC20Async (amount : Nat) (tokenContract : Address)
    (recipient : Option Address) : TransferGatewayWithdrawTokenRequest :=
  { tokenKind := some TransferGatewayTokenKind.ERC20
    tokenId := none
    tokenAmount := some (marshalBigUIntPB amount)
    tokenContract := some tokenContract.MarshalPB
    recipient := recipient.map Address.MarshalPB }

/-- `TransferGateway.withdrawETHAsync`: builds the `WithdrawETH` request with
the marshalled amount, the Ethereum gateway address and the recipient only
when one was passed. -/
def withdrawETHAsync (amount : Nat) (ethereumGateway : Address)
    (recipient : Option Address) : TransferGatewayWithdrawETHRequest :=
  { amount := some (marshalBigUIntPB amount)
    mainnetGateway := some ethereumGateway.MarshalPB
    recipient := recipient.map Address.MarshalPB }

/-- Models a JavaScript-runtime call of `withdrawERC721Async` in which the
caller additionally supplies an amount — a field combination invalid for the
non-fungible token kind. TypeScript parameter types are erased at runtime and
extra arguments are ignored by JavaScript call semantics; the function body
reads only its three declared parameters and performs no field validation, so
the call cannot fail locally: it always hands the successfully built request
to the network call. The `Except` codomain records that no thrown error
(in particular no malformed-parameters error) is possible on this path. -/
def withdrawERC721AsyncRuntimeCall (tokenId : Nat) (tokenContract : Address)
    (recipient : Option Address) (_extraAmount : Nat) :
    Except JsValue TransferGatewayWithdrawTokenRequest :=
  Except.ok (withdrawERC721Async tokenId tokenContract recipient)

/-- The classification predicate of the amended claim C1, written from the
amended claim's words: some present stage has status code exactly 1 and a log
containing the sequence-mismatch marker. Compared against `HandleResults`
itself in the classification theorem. -/
def nonceConflictClaimed (r : ITxResults) : Bool :=
  (r.validation.elim false fun s => s.code == 1 && strIndexOfFound s.log seqMismatchMarker) ||
  (r.commit.elim false fun s => s.code == 1 && strIndexOfFound s.log seqMismatchMarker)

lemma strIndexOfFound_empty_marker : strIndexOfFound "" seqMismatchMarker = false := by
  decide

lemma stageSignals_eq (s : StageResult) :
    stageSignalsNonceMismatch s
      = (s.code == 1 && strIndexOfFound s.log seqMismatchMarker) := by
  unfold stageSignalsNonceMismatch
  cases hl : s.log == "" with
  | false => simp [hl]
  | true =>
    have he : s.log = "" := eq_of_beq hl
    simp [hl, he, strIndexOfFound_empty_marker]

lemma handleResults_eq (r : ITxResults) :
    HandleResults r =
      (if optionStageSignals r.validation || optionStageSignals r.commit then
        Except.error (JsValue.jsError INVALID_TX_NONCE_ERROR)
      else Except.ok r) := by
  unfold HandleResults
  cases hv : optionStageSignals r.validation <;>
    cases hc : optionStageSignals r.commit <;> simp [hv, hc]

lemma nonceConflictClaimed_eq (r : ITxResults) :
    nonceConflictClaimed r
      = (optionStageSignals r.validation || optionStageSignals r.commit) := by
  rcases r with ⟨v, c⟩
  rcases v with _ | sv <;> rcases c with _ | sc <;>
    simp [nonceConflictClaimed, optionStageSignals, Option.elim, stageSignals_eq]

/-- C1 (amended): `HandleResults` fails with the ReplayNonceConflict error if
and only if at least one of the validation or commit stages has status code
exactly 1 (not merely any non-zero code) and that stage's log text contains
the marker substring "sequence number does not match"; in every other case it
returns the input result set unchanged, including when both stages are absent
and including when a stage carries some other application-level failure. -/
theorem handleResults_nonce_classification (r : ITxResults) :
    (HandleResults r = Except.error (JsValue.jsError INVALID_TX_NONCE_ERROR)
        ↔ nonceConflictClaimed r = true) ∧
    (nonceConflictClaimed r = false → HandleResults r = Except.ok r) := by
  constructor
  · rw [handleResults_eq, nonceConflictClaimed_eq]
    cases h : (optionStageSignals r.validation || optionStageSignals r.commit) <;>
      simp [h]
  · intro h
    rw [handleResults_eq]
    rw [nonceConflictClaimed_eq] at h
    simp [h]

/-- Witness for C1's amended theorem: the concrete result set of spec
scenario 3 — a clean validation stage and a commit stage failing with
"insufficient balance" — satisfies the second conjunct's hypothesis and is
passed through unchanged. -/
theorem handleResults_nonce_classification_witness :
    HandleResults
        { validation := some { code := 0, log := "" },
          commit := some { code := 1, log := "insufficient balance" } }
      = Except.ok
        { validation := some { code := 0, log := "" },
          commit := some { code := 1, log := "insufficient balance" } } :=
  (handleResults_nonce_classification
    { validation := some { code := 0, log := "" },
      commit := some { code := 1, log := "insufficient balance" } }).2 (by decide)

/-- C1 counterexample: a validation stage with the non-zero failure code 2
whose log contains the sequence-mismatch marker. The claim, which requires
`interpret` to fail with ReplayNonceConflict for every non-zero/failure code,
is false here: the source tests `code === 1` exactly, so `HandleResults`
returns the result set unchanged. -/
theorem handleResults_nonzero_code_counterexample :
    (2 : Nat) ≠ 0 ∧
    strIndexOfFound "sequence number does not match" seqMismatchMarker = true ∧
    HandleResults
        { validation := some { code := 2, log := "sequence number does not match" },
          commit := none }
      = Except.ok
        { validation := some { code := 2, log := "sequence number does not match" },
          commit := none } :=
  ⟨by decide, by decide, by rfl⟩

/-- C2: `Handle` fetches the current committed sequence number for the
`('eth', account)` pair from the chain-state reader and produces an envelope
whose sequence number is exactly that value plus one and whose inner payload
is the input payload unchanged; in particular, when the current sequence
number is 41 the envelope carries sequence 42. -/
theorem handle_attaches_next_sequence (getNonce2Async : String → String → Nat)
    (fromAddress : String) (txData : List Nat) :
    (Handle getNonce2Async fromAddress txData).sequence
        = getNonce2Async "eth" fromAddress + 1 ∧
    (Handle getNonce2Async fromAddress txData).inner = txData ∧
    (getNonce2Async "eth" fromAddress = 41 →
      (Handle getNonce2Async fromAddress txData).sequence = 42) := by
  refine ⟨rfl, rfl, fun h => ?_⟩
  simp [Handle, h]

/-- Witness for C2: with a chain-state reader whose current sequence number is
41, the envelope built for a concrete payload carries sequence 42 and the
payload unchanged. -/
theorem handle_attaches_next_sequence_witness :
    (Handle (fun _ _ => 41) "0xf17f52151EbEF6C7334FAD080c5704D77216b732" [1, 2, 3]).sequence = 42 ∧
    (Handle (fun _ _ => 41) "0xf17f52151EbEF6C7334FAD080c5704D77216b732" [1, 2, 3]).inner = [1, 2, 3] :=
  ⟨(handle_attaches_next_sequence (fun _ _ => 41) _ [1, 2, 3]).2.2 rfl,
    (handle_attaches_next_sequence (fun _ _ => 41) _ [1, 2, 3]).2.1⟩

/-- C9: every error thrown by `HandleResults` is the single distinguished
value, an `Error` whose message equals the constant "Invalid tx nonce"; the
classifier `isInvalidTxNonceError` returns `true` exactly on an `Error`
instance with that message; hence every error `HandleResults` throws
satisfies `isInvalidTxNonceError`. -/
theorem handleResults_error_classified (r : ITxResults) (err v : JsValue) :
    (HandleResults r = Except.error err →
      err = JsValue.jsError INVALID_TX_NONCE_ERROR) ∧
    (isInvalidTxNonceError v = true ↔ v = JsValue.jsError INVALID_TX_NONCE_ERROR) ∧
    (HandleResults r = Except.error err → isInvalidTxNonceError err = true) := by
  have hcls : ∀ w : JsValue,
      isInvalidTxNonceError w = true ↔ w = JsValue.jsError INVALID_TX_NONCE_ERROR := by
    intro w
    cases w with
    | jsError message => simp [isInvalidTxNonceError]
    | jsOther tag => simp [isInvalidTxNonceError]
  have herr : HandleResults r = Except.error err →
      err = JsValue.jsError INVALID_TX_NONCE_ERROR := by
    intro h
    rw [handleResults_eq] at h
    cases hb : (optionStageSignals r.validation || optionStageSignals r.commit) <;>
      rw [hb] at h <;> simp at h
    exact h.symm
  exact ⟨herr, hcls v, fun h => (hcls err).mpr (herr h)⟩

/-- Witness for C9: the concrete result set of spec scenario 2 — a commit
stage failing with code 1 and a log containing the marker — makes
`HandleResults` throw, and the thrown error both equals the distinguished
value and satisfies the classifier. -/
theorem handleResults_error_classified_witness :
    JsValue.jsError INVALID_TX_NONCE_ERROR = JsValue.jsError INVALID_TX_NONCE_ERROR ∧
    isInvalidTxNonceError (JsValue.jsError INVALID_TX_NONCE_ERROR) = true :=
  ⟨(handleResults_error_classified
      { validation := none,
        commit := some { code := 1, log := "tx sequence number does not match" } }
      (JsValue.jsError INVALID_TX_NONCE_ERROR) (JsValue.jsOther "t")).1 (by rfl),
    (handleResults_error_classified
      { validation := none,
        commit := some { code := 1, log := "tx sequence number does not match" } }
      (JsValue.jsError INVALID_TX_NONCE_ERROR) (JsValue.jsOther "t")).2.2 (by rfl)⟩

/-- C3: for every decodable signed-withdrawal event and receipt, the
normalized fields follow the token kind — `ERC721` (Non-Fungible) unmarshals
only the token id and sets `value` to it, leaving the amount absent;
`ERC721X` (Semi-Fungible) unmarshals both the token id and the amount and
sets `value` to the amount; `ERC20` (Fungible) and `ETH` (Native-Coin)
unmarshal only the amount, set `value` to it, and leave the token id
absent. Stated as full-record equalities for the event decoder and for the
receipt path of `withdrawalReceiptAsync`. -/
theorem decode_fields_follow_token_kind
    (e : TransferGatewayTokenWithdrawalSigned)
    (rc : TransferGatewayWithdrawalReceipt) (owner : Address) :
    (e.tokenKind = TransferGatewayTokenKind.ERC721 →
      decodeTokenWithdrawalSigned e =
        { tokenOwner := e.tokenOwner, tokenContract := e.tokenContract
          tokenKind := e.tokenKind, tokenId := some e.tokenId, tokenAmount := none
          sigs := e.validatorSignatures.map splitSignature, value := e.tokenId }) ∧
    (e.tokenKind = TransferGatewayTokenKind.ERC721X →
      decodeTokenWithdrawalSigned e =
        { tokenOwner := e.tokenOwner, tokenContract := e.tokenContract
          tokenKind := e.tokenKind, tokenId := some e.tokenId
          tokenAmount := some e.tokenAmount
          sigs := e.validatorSignatures.map splitSignature, value := e.tokenAmount }) ∧
    (e.tokenKind = TransferGatewayTokenKind.ERC20 ∨
        e.tokenKind = TransferGatewayTokenKind.ETH →
      decodeTokenWithdrawalSigned e =
        { tokenOwner := e.tokenOwner, tokenContract := e.tokenContract
          tokenKind := e.tokenKind, tokenId := none
          tokenAmount := some e.tokenAmount
          sigs := e.validatorSignatures.map splitSignature, value := e.tokenAmount }) ∧
    (rc.tokenKind = TransferGatewayTokenKind.ERC721 →
      withdrawalReceiptAsync (fun _ => { receipt := some rc }) owner =
        some { tokenOwner := rc.tokenOwner, tokenContract := rc.tokenContract
               tokenKind := rc.tokenKind, tokenId := some rc.tokenId
               tokenAmount := none, withdrawalNonce := rc.withdrawalNonce
               value := rc.tokenId
               sigs := rc.validatorSignatures.map splitSignature }) ∧
    (rc.tokenKind = TransferGatewayTokenKind.ERC721X →
      withdrawalReceiptAsync (fun _ => { receipt := some rc }) owner =
        some { tokenOwner := rc.tokenOwner, tokenContract := rc.tokenContract
               tokenKind := rc.tokenKind, tokenId := some rc.tokenId
               tokenAmount := some rc.tokenAmount
               withdrawalNonce := rc.withdrawalNonce, value := rc.tokenAmount
               sigs := rc.validatorSignatures.map splitSignature }) ∧
    (rc.tokenKind = TransferGatewayTokenKind.ERC20 ∨
        rc.tokenKind = TransferGatewayTokenKind.ETH →
      withdrawalReceiptAsync (fun _ => { receipt := some rc }) owner =
        some { tokenOwner := rc.tokenOwner, tokenContract := rc.tokenContract
               tokenKind := rc.tokenKind, tokenId := none
               tokenAmount := some rc.tokenAmount
               withdrawalNonce := rc.withdrawalNonce, value := rc.tokenAmount
               sigs := rc.validatorSignatures.map splitSignature }) := by
  refine ⟨fun h => ?_, fun h => ?_, fun h => ?_, fun h => ?_, fun h => ?_, fun h => ?_⟩ <;>
    first
      | (rcases h with h | h <;>
          simp [decodeTokenWithdrawalSigned, withdrawalReceiptAsync, h,
            Address.UnmarshalPB, unmarshalBigUIntPB,
            TransferGatewayTokenKind.ERC721, TransferGatewayTokenKind.ERC721X,
            TransferGatewayTokenKind.ERC20, TransferGatewayTokenKind.ETH])
      | (simp [decodeTokenWithdrawalSigned, withdrawalReceiptAsync, h,
          Address.UnmarshalPB, unmarshalBigUIntPB,
          TransferGatewayTokenKind.ERC721, TransferGatewayTokenKind.ERC721X])

/-- Witness for C3 at the spec's concrete scenarios: a Semi-Fungible
(`ERC721X`) event with token id 3 and amount 500 decodes to token id 3,
amount 500, value 500; a Non-Fungible (`ERC721`) receipt with token id 7
decodes to token id 7, absent amount, value 7. -/
theorem decode_fields_follow_token_kind_witness :
    decodeTokenWithdrawalSigned
        { tokenOwner := { chainId := "default", localAddress := "0xaa" }
          tokenContract := { chainId := "eth", localAddress := "0xbb" }
          tokenKind := 3, tokenId := 3, tokenAmount := 500
          validatorSignatures := [[1], [2]] } =
      { tokenOwner := { chainId := "default", localAddress := "0xaa" }
        tokenContract := { chainId := "eth", localAddress := "0xbb" }
        tokenKind := 3, tokenId := some 3, tokenAmount := some 500
        sigs := ([[1], [2]] : List (List Nat)).map splitSignature
        value := 500 } ∧
    withdrawalReceiptAsync
        (fun _ =>
          { receipt := some
              { tokenOwner := { chainId := "default", localAddress := "0xaa" }
                tokenContract := { chainId := "eth", localAddress := "0xcc" }
                tokenKind := 2, tokenId := 7, tokenAmount := 0
                withdrawalNonce := 5, validatorSignatures := [[9]] } })
        { chainId := "default", localAddress := "0xaa" } =
      some
        { tokenOwner := { chainId := "default", localAddress := "0xaa" }
          tokenContract := { chainId := "eth", localAddress := "0xcc" }
          tokenKind := 2, tokenId := some 7, tokenAmount := none
          withdrawalNonce := 5, value := 7
          sigs := ([[9]] : List (List Nat)).map splitSignature } := by
  have h := decode_fields_follow_token_kind
    { tokenOwner := { chainId := "default", localAddress := "0xaa" }
      tokenContract := { chainId := "eth", localAddress := "0xbb" }
      tokenKind := 3, tokenId := 3, tokenAmount := 500
      validatorSignatures := [[1], [2]] }
    { tokenOwner := { chainId := "default", localAddress := "0xaa" }
      tokenContract := { chainId := "eth", localAddress := "0xcc" }
      tokenKind := 2, tokenId := 7, tokenAmount := 0
      withdrawalNonce := 5, validatorSignatures := [[9]] }
    { chainId := "default", localAddress := "0xaa" }
  exact ⟨h.2.1 rfl, h.2.2.2.1 rfl⟩

/-- C10: for every token-kind discriminant other than `ERC721` and `ERC721X`
— including unrecognized or future values — both the event decoder and the
receipt decoder take the default branch: token id left unset, and both the
amount and the legacy `value` field set from the raw amount field, with no
rejection of the unknown kind. -/
theorem decode_unknown_kind_defaults
    (e : TransferGatewayTokenWithdrawalSigned)
    (rc : TransferGatewayWithdrawalReceipt) (owner : Address) :
    (e.tokenKind ≠ TransferGatewayTokenKind.ERC721 →
      e.tokenKind ≠ TransferGatewayTokenKind.ERC721X →
      decodeTokenWithdrawalSigned e =
        { tokenOwner := e.tokenOwner, tokenContract := e.tokenContract
          tokenKind := e.tokenKind, tokenId := none
          tokenAmount := some e.tokenAmount
          sigs := e.validatorSignatures.map splitSignature
          value := e.tokenAmount }) ∧
    (rc.tokenKind ≠ TransferGatewayTokenKind.ERC721 →
      rc.tokenKind ≠ TransferGatewayTokenKind.ERC721X →
      withdrawalReceiptAsync (fun _ => { receipt := some rc }) owner =
        some { tokenOwner := rc.tokenOwner, tokenContract := rc.tokenContract
               tokenKind := rc.tokenKind, tokenId := none
               tokenAmount := some rc.tokenAmount
               withdrawalNonce := rc.withdrawalNonce, value := rc.tokenAmount
               sigs := rc.validatorSignatures.map splitSignature }) := by
  constructor
  · intro h1 h2
    simp [decodeTokenWithdrawalSigned, Address.UnmarshalPB, unmarshalBigUIntPB, h1, h2]
  · intro h1 h2
    simp [withdrawalReceiptAsync, Address.UnmarshalPB, unmarshalBigUIntPB, h1, h2]

/-- Witness for C10: the unrecognized future discriminant 99 takes the default
branch in both decoders. -/
theorem decode_unknown_kind_defaults_witness :
    decodeTokenWithdrawalSigned
        { tokenOwner := { chainId := "default", localAddress := "0xaa" }
          tokenContract := { chainId := "eth", localAddress := "0xbb" }
          tokenKind := 99, tokenId := 11, tokenAmount := 250
          validatorSignatures := [] } =
      { tokenOwner := { chainId := "default", localAddress := "0xaa" }
        tokenContract := { chainId := "eth", localAddress := "0xbb" }
        tokenKind := 99, tokenId := none, tokenAmount := some 250
        sigs := [], value := 250 } ∧
    withdrawalReceiptAsync
        (fun _ =>
          { receipt := some
              { tokenOwner := { chainId := "default", localAddress := "0xaa" }
                tokenContract := { chainId := "eth", localAddress := "0xbb" }
                tokenKind := 99, tokenId := 11, tokenAmount := 250
                withdrawalNonce := 1, validatorSignatures := [] } })
        { chainId := "default", localAddress := "0xaa" } =
      some
        { tokenOwner := { chainId := "default", localAddress := "0xaa" }
          tokenContract := { chainId := "eth", localAddress := "0xbb" }
          tokenKind := 99, tokenId := none, tokenAmount := some 250
          withdrawalNonce := 1, value := 250, sigs := [] } := by
  have h := decode_unknown_kind_defaults
    { tokenOwner := { chainId := "default", localAddress := "0xaa" }
      tokenContract := { chainId := "eth", localAddress := "0xbb" }
      tokenKind := 99, tokenId := 11, tokenAmount := 250
      validatorSignatures := [] }
    { tokenOwner := { chainId := "default", localAddress := "0xaa" }
      tokenContract := { chainId := "eth", localAddress := "0xbb" }
      tokenKind := 99, tokenId := 11, tokenAmount := 250
      withdrawalNonce := 1, validatorSignatures := [] }
    { chainId := "default", localAddress := "0xaa" }
  exact ⟨h.1 (by decide) (by decide), h.2 (by decide) (by decide)⟩

/-- C6: for every decoded signed-withdrawal event and receipt, the normalized
validator-signature list is exactly the raw validator-signature list mapped
entrywise through the `(r, s, v)` normalizer — same length, same order, no
re-sorting, dropping or duplication. -/
theorem decode_preserves_signature_list
    (e : TransferGatewayTokenWithdrawalSigned)
    (rc : TransferGatewayWithdrawalReceipt) (owner : Address) :
    (decodeTokenWithdrawalSigned e).sigs = e.validatorSignatures.map splitSignature ∧
    (decodeTokenWithdrawalSigned e).sigs.length = e.validatorSignatures.length ∧
    (withdrawalReceiptAsync (fun _ => { receipt := some rc }) owner).map
        IWithdrawalReceipt.sigs
      = some (rc.validatorSignatures.map splitSignature) ∧
    (withdrawalReceiptAsync (fun _ => { receipt := some rc }) owner).map
        (fun w => w.sigs.length)
      = some rc.validatorSignatures.length := by
  refine ⟨rfl, ?_, rfl, ?_⟩ <;>
    simp [decodeTokenWithdrawalSigned, withdrawalReceiptAsync]

/-- C5: a withdrawal-receipt query whose response carries no stored receipt
returns the distinguished absent result `none` (the source's `null`) — the
return type carries no error and `none` is not a zero-valued receipt object —
while a response carrying a receipt yields a decoded receipt. -/
theorem withdrawal_receipt_absent_vs_present
    (staticCallAsync : Address → TransferGatewayWithdrawalReceiptResponse)
    (owner : Address) (rc : TransferGatewayWithdrawalReceipt) :
    ((staticCallAsync owner).receipt = none →
      withdrawalReceiptAsync staticCallAsync owner = none) ∧
    ((staticCallAsync owner).receipt = some rc →
      (withdrawalReceiptAsync staticCallAsync owner).isSome = true) := by
  constructor
  · intro h
    simp [withdrawalReceiptAsync, h]
  · intro h
    simp [withdrawalReceiptAsync, h]

/-- Witness for C5: a transport with no stored receipt yields `none`; one with
a stored receipt yields a present result. -/
theorem withdrawal_receipt_absent_vs_present_witness :
    withdrawalReceiptAsync (fun _ => { receipt := none })
        { chainId := "default", localAddress := "0xaa" } = none ∧
    (withdrawalReceiptAsync
        (fun _ =>
          { receipt := some
              { tokenOwner := { chainId := "default", localAddress := "0xaa" }
                tokenContract := { chainId := "eth", localAddress := "0xbb" }
                tokenKind := 1, tokenId := 0, tokenAmount := 20
                withdrawalNonce := 0, validatorSignatures := [] } })
        { chainId := "default", localAddress := "0xaa" }).isSome = true :=
  ⟨(withdrawal_receipt_absent_vs_present (fun _ => { receipt := none })
      { chainId := "default", localAddress := "0xaa" }
      { tokenOwner := { chainId := "default", localAddress := "0xaa" }
        tokenContract := { chainId := "eth", localAddress := "0xbb" }
        tokenKind := 1, tokenId := 0, tokenAmount := 20
        withdrawalNonce := 0, validatorSignatures := [] }).1 rfl,
    (withdrawal_receipt_absent_vs_present
      (fun _ =>
        { receipt := some
            { tokenOwner := { chainId := "default", localAddress := "0xaa" }
              tokenContract := { chainId := "eth", localAddress := "0xbb" }
              tokenKind := 1, tokenId := 0, tokenAmount := 20
              withdrawalNonce := 0, validatorSignatures := [] } })
      { chainId := "default", localAddress := "0xaa" }
      { tokenOwner := { chainId := "default", localAddress := "0xaa" }
        tokenContract := { chainId := "eth", localAddress := "0xbb" }
        tokenKind := 1, tokenId := 0, tokenAmount := 20
        withdrawalNonce := 0, validatorSignatures := [] }).2 rfl⟩

/-- C7: building a Native-Coin withdrawal produces a `WithdrawETH` request
carrying the amount and the mainnet (foreign-chain) gateway address — the
`TransferGatewayWithdrawETHRequest` message has no token-contract field at
all — and for every construction operation of any token kind, omitting the
optional recipient leaves the request's recipient field absent (no client-side
resolution is performed). -/
theorem withdraw_requests_shape (amount tokenId : Nat)
    (gateway tokenContract : Address) :
    withdrawETHAsync amount gateway none =
      { amount := some amount, mainnetGateway := some gateway, recipient := none } ∧
    (withdrawERC721Async tokenId tokenContract none).recipient = none ∧
    (withdrawERC721XAsync tokenId amount tokenContract none).recipient = none ∧
    (withdrawERC20Async amount tokenContract none).recipient = none ∧
    (withdrawETHAsync amount gateway none).recipient = none :=
  ⟨rfl, rfl, rfl, rfl, rfl⟩

/-- C4 (amended): the construction operations perform no local field
validation and have no MalformedParameters failure path; instead each
operation's typed interface admits exactly the field combination valid for its
declared token kind, every call succeeds, and the built kind-correct request
is handed to the network transport. In particular a runtime call of the
non-fungible builder that additionally supplies an amount is not rejected
locally: the extra field is ignored and the built request carries no amount. -/
theorem withdraw_builders_no_local_validation
    (tokenId amount extra : Nat) (tokenContract gateway : Address)
    (recipient : Option Address) :
    withdrawERC721AsyncRuntimeCall tokenId tokenContract recipient extra
      = Except.ok (withdrawERC721Async tokenId tokenContract recipient) ∧
    (withdrawERC721Async tokenId tokenContract recipient).tokenKind
      = some TransferGatewayTokenKind.ERC721 ∧
    (withdrawERC721Async tokenId tokenContract recipient).tokenId = some tokenId ∧
    (withdrawERC721Async tokenId tokenContract recipient).tokenAmount = none ∧
    (withdrawERC721XAsync tokenId amount tokenContract recipient).tokenKind
      = some TransferGatewayTokenKind.ERC721X ∧
    (withdrawERC721XAsync tokenId amount tokenContract recipient).tokenId = some tokenId ∧
    (withdrawERC721XAsync tokenId amount tokenContract recipient).tokenAmount = some amount ∧
    (withdrawERC20Async amount tokenContract recipient).tokenKind
      = some TransferGatewayTokenKind.ERC20 ∧
    (withdrawERC20Async amount tokenContract recipient).tokenId = none ∧
    (withdrawERC20Async amount tokenContract recipient).tokenAmount = some amount ∧
    (withdrawETHAsync amount gateway recipient).amount = some amount ∧
    (withdrawETHAsync amount gateway recipient).mainnetGateway = some gateway :=
  ⟨rfl, rfl, rfl, rfl, rfl, rfl, rfl, rfl, rfl, rfl, rfl, rfl⟩

/-- C4 counterexample: calling the Non-Fungible (ERC721) withdrawal builder at
runtime with an amount supplied — the claim's own example of an invalid field
combination — does not fail with a local MalformedParameters precondition
error: the builder performs no validation, the extra amount is ignored, and
the call succeeds with the ERC721 request (which carries no amount) that is
then sent to the network. -/
theorem withdraw_erc721_extra_amount_counterexample :
    withdrawERC721AsyncRuntimeCall 7
        { chainId := "default", localAddress := "0xbb" } none 100
      = Except.ok (withdrawERC721Async 7
          { chainId := "default", localAddress := "0xbb" } none) ∧
    (withdrawERC721Async 7 { chainId := "default", localAddress := "0xbb" } none).tokenAmount
      = none :=
  ⟨rfl, rfl⟩

/-- C8: the event listener decodes a delivered event's payload only when its
first topic is the `TokenWithdrawalSigned` topic or the
`ContractMappingConfirmed` topic; an event whose topics list is missing or
empty, or whose first topic matches neither, is ignored — the result is `none`
for every choice of deserializers, so no decoding takes place, nothing is
emitted, and no error arises. -/
theorem event_dispatch_topic_filter
    (deserializeWithdrawal : String → TransferGatewayTokenWithdrawalSigned)
    (deserializeMapping : String → TransferGatewayContractMappingConfirmed)
    (event : IChainEventArgs) :
    (event.topics = none →
      handleContractEvent deserializeWithdrawal deserializeMapping event = none) ∧
    (event.topics = some [] →
      handleContractEvent deserializeWithdrawal deserializeMapping event = none) ∧
    (∀ t ts, event.topics = some (t :: ts) →
      t ≠ tokenWithdrawalSignedEventTopic →
      t ≠ contractMappingConfirmedEventTopic →
      handleContractEvent deserializeWithdrawal deserializeMapping event = none) ∧
    (∀ ts, event.topics = some (tokenWithdrawalSignedEventTopic :: ts) →
      handleContractEvent deserializeWithdrawal deserializeMapping event =
        some (EmittedGatewayEvent.tokenWithdrawal
          (decodeTokenWithdrawalSigned (deserializeWithdrawal event.data)))) ∧
    (∀ ts, event.topics = some (contractMappingConfirmedEventTopic :: ts) →
      handleContractEvent deserializeWithdrawal deserializeMapping event =
        some (EmittedGatewayEvent.contractMappingConfirmed
          { foreignContract := (deserializeMapping event.data).foreignContract
            localContract := (deserializeMapping event.data).localContract })) := by
  have hne : contractMappingConfirmedEventTopic ≠ tokenWithdrawalSignedEventTopic := by
    decide
  refine ⟨fun h => ?_, fun h => ?_, fun t ts h h1 h2 => ?_, fun ts h => ?_,
    fun ts h => ?_⟩
  · simp [handleContractEvent, h]
  · simp [handleContractEvent, h]
  · simp [handleContractEvent, h, h1, h2]
  · simp [handleContractEvent, h]
  · simp [handleContractEvent, h, hne, Address.UnmarshalPB]

/-- A concrete deserialized withdrawal payload for the event-dispatch witness. -/
def sampleWithdrawalPB : TransferGatewayTokenWithdrawalSigned :=
  { tokenOwner := { chainId := "default", localAddress := "0xaa" }
    tokenContract := { chainId := "eth", localAddress := "0xbb" }
    tokenKind := 1, tokenId := 0, tokenAmount := 20
    validatorSignatures := [[4]] }

/-- A concrete deserialized mapping payload for the event-dispatch witness. -/
def sampleMappingPB : TransferGatewayContractMappingConfirmed :=
  { foreignContract := { chainId := "eth", localAddress := "0xcc" }
    localContract := { chainId := "default", localAddress := "0xdd" } }

/-- Witness for C8: with concrete deserializers, an event without topics and
an event with an unrelated first topic are ignored, while events headed by the
two recognized topics are decoded and emitted. -/
theorem event_dispatch_topic_filter_witness :
    handleContractEvent (fun _ => sampleWithdrawalPB) (fun _ => sampleMappingPB)
        { topics := none, data := "AA==" } = none ∧
    handleContractEvent (fun _ => sampleWithdrawalPB) (fun _ => sampleMappingPB)
        { topics := some ["event:Other"], data := "AA==" } = none ∧
    handleContractEvent (fun _ => sampleWithdrawalPB) (fun _ => sampleMappingPB)
        { topics := some ["event:TokenWithdrawalSigned"], data := "AA==" } =
      some (EmittedGatewayEvent.tokenWithdrawal
        (decodeTokenWithdrawalSigned sampleWithdrawalPB)) ∧
    handleContractEvent (fun _ => sampleWithdrawalPB) (fun _ => sampleMappingPB)
        { topics := some ["event:ContractMappingConfirmed"], data := "AA==" } =
      some (EmittedGatewayEvent.contractMappingConfirmed
        { foreignContract := sampleMappingPB.foreignContract
          localContract := sampleMappingPB.localContract }) :=
  ⟨(event_dispatch_topic_filter (fun _ => sampleWithdrawalPB)
      (fun _ => sampleMappingPB) { topics := none, data := "AA==" }).1 rfl,
    (event_dispatch_topic_filter (fun _ => sampleWithdrawalPB)
      (fun _ => sampleMappingPB)
      { topics := some ["event:Other"], data := "AA==" }).2.2.1 "event:Other" []
      rfl (by decide) (by decide),
    (event_dispatch_topic_filter (fun _ => sampleWithdrawalPB)
      (fun _ => sampleMappingPB)
      { topics := some ["event:TokenWithdrawalSigned"], data := "AA==" }).2.2.2.1 []
      rfl,
    (event_dispatch_topic_filter (fun _ => sampleWithdrawalPB)
      (fun _ => sampleMappingPB)
      { topics := some ["event:ContractMappingConfirmed"], data := "AA==" }).2.2.2.2 []
      rfl⟩
